import Mathlib

/-!
Shallow embedding of the Accident-Detection-and-Alert-System backend.

Sources embedded here:
 - src/User_app.py  : identifier resolver (find_vehicle_by_identifier), the
   in-memory SSE hub (sse_subscribe / sse_unsubscribe / sse_publish), the
   vehicle endpoints (add_vehicle, get_vehicle, validate_id), the hardware
   ingestion endpoint (hardware_event) and the live stream session
   (stream_vehicle's event_stream generator).
 - src/Dev_app.py   : the developer add_vehicle upsert endpoint.
 - src/db_init.py   : the persistent schema and the demo row.

Modeling conventions.  SQLite tables become lists of row structures; a query
returns the first matching row (one=True) or the filtered rows; an UPDATE maps
over the rows; AUTOINCREMENT is a nextVehicleId counter.  A statement that
references a column the live schema does not define fails at prepare time;
this is modeled by DbSchema flags and an Except result for the transaction
(sqlite3 raises OperationalError, Flask answers 500, and the teardown handler
closes the connection, rolling the open transaction back).  Python string
values stay String; float-valued JSON fields (intensity, lat, lng) are opaque
pass-through values that the code never computes with, kept as Option String.
Clock reads (datetime.utcnow().isoformat() and SQL CURRENT_TIMESTAMP) are a
`now` parameter.
-/

namespace AccidentDetection

/-- Characters removed by Python's str.strip() with no argument (the ASCII
whitespace set; the code base never feeds it non-ASCII whitespace). -/
def isPySpace (c : Char) : Bool :=
  c = ' ' || c = '\t' || c = '\n' || c = '\r' || c = '\x0b' || c = '\x0c'

/-- List-level body of str.strip(): drop leading and trailing whitespace. -/
def pyStripL (cs : List Char) : List Char :=
  ((cs.dropWhile isPySpace).reverse.dropWhile isPySpace).reverse

/-- Python str.strip(). -/
def pyStrip (s : String) : String :=
  String.mk (pyStripL s.data)

/-- Python `a or b` collapsed over an optional string: None and "" are falsy. -/
def strOr (o : Option String) (d : String) : String :=
  match o with
  | none => d
  | some s => if s = "" then d else s

/-- Accumulate decimal digits left to right; none at the first non-digit. -/
def digitsCore : List Char → Nat → Option Nat
  | [], acc => some acc
  | c :: cs, acc =>
    if c.isDigit then digitsCore cs (acc * 10 + (c.toNat - 48)) else none

/-- Python int(s) on the identifier strings this code base passes it:
surrounding whitespace is ignored, an optional sign precedes one or more
decimal digits, anything else raises (returns none).  Underscore separators
and non-ASCII digits, which CPython also accepts, are outside the model. -/
def pyInt (s : String) : Option Int :=
  match (pyStrip s).data with
  | [] => none
  | '-' :: cs =>
    if cs = [] then none else (digitsCore cs 0).map (fun n => -(n : Int))
  | '+' :: cs =>
    if cs = [] then none else (digitsCore cs 0).map (fun n => (n : Int))
  | cs => (digitsCore cs 0).map (fun n => (n : Int))

/-- One row of the vehicles table.  Columns per src/db_init.py (and
src/Dev_app.py after its migration): id INTEGER PRIMARY KEY AUTOINCREMENT,
vehicle_id TEXT UNIQUE NOT NULL, model, owner, registration,
accident_details, created_at.  No initializer in the repository creates an
updated_at column; the field below carries a value only under a DbSchema
that defines the column (see hwTransaction). -/
structure VehicleRow where
  id : Nat
  vehicle_id : String
  model : Option String
  owner : Option String
  registration : Option String
  accident_details : Option String
  created_at : Option String
  updated_at : Option String
  deriving DecidableEq

/-- Which index column matched, the second component of
find_vehicle_by_identifier's return value. -/
inductive UsedField where
  | vehicleId
  | numericId
  deriving DecidableEq

/-- SELECT * FROM vehicles WHERE vehicle_id = ? (one=True): first match. -/
def query_vehicles_by_vid (vs : List VehicleRow) (k : String) : Option VehicleRow :=
  vs.find? (fun r => r.vehicle_id == k)

/-- SELECT * FROM vehicles WHERE id = ? (one=True): first match. -/
def query_vehicles_by_id (vs : List VehicleRow) (i : Int) : Option VehicleRow :=
  vs.find? (fun r => ((r.id : Int) == i))

/-- src/User_app.py lines 54-81, find_vehicle_by_identifier: None or
whitespace-only input resolves to nothing; otherwise the stripped input is
looked up by vehicle_id text; on a miss, if it parses as an integer it is
looked up by the numeric id column.  Read-only: the function takes the rows
and returns only the match. -/
def find_vehicle_by_identifier (vs : List VehicleRow) (ident : Option String) :
    Option (VehicleRow × UsedField) :=
  match ident with
  | none => none
  | some s =>
    let ident_str := pyStrip s
    if ident_str = "" then none
    else
      match query_vehicles_by_vid vs ident_str with
      | some row => some (row, UsedField.vehicleId)
      | none =>
        match pyInt ident_str with
        | none => none
        | some iid =>
          match query_vehicles_by_id vs iid with
          | some row => some (row, UsedField.numericId)
          | none => none

/-- Modelled from the spec (claim C2 wording): the resolution order, first
match wins.  1. empty/whitespace-only (or missing) input is NotFound;
2. exact, case-sensitive lookup by canonical alias; 3. if the trimmed input
parses as an integer, lookup by surrogate numeric key; 4. otherwise NotFound.
Stated over the same row type to compare with the code's resolver. -/
def resolve_spec (vs : List VehicleRow) (ident : Option String) :
    Option (VehicleRow × UsedField) :=
  match ident with
  | none => none
  | some s =>
    if pyStrip s = "" then none
    else
      match vs.find? (fun r => r.vehicle_id == pyStrip s) with
      | some r => some (r, UsedField.vehicleId)
      | none =>
        match pyInt (pyStrip s) with
        | some n =>
          (vs.find? (fun r => ((r.id : Int) == n))).map (fun r => (r, UsedField.numericId))
        | none => none

/-- Parsed JSON body of POST /hardware/event.  Identifier, timestamp and note
fields the code treats as strings are strings; intensity, lat, lng are opaque
pass-through values (the code never computes with them). -/
structure HwBody where
  vehicleID : Option String := none
  vehicle_id : Option String := none
  intensity : Option String := none
  lat : Option String := none
  lng : Option String := none
  timestamp : Option String := none
  notes : Option String := none
  accidentDetails : Option String := none
  deriving DecidableEq

/-- One row of the accident_events table as User_app writes it (columns
vehicle_id, intensity, lat, lng, timestamp, raw_payload; the id and
created_at defaults play no part in any claim).  raw_payload holds
json.dumps(data); since dumps is injective on parsed bodies the model keeps
the body itself. -/
structure EventRow where
  vehicle_id : String
  intensity : Option String
  lat : Option String
  lng : Option String
  timestamp : String
  raw_payload : HwBody
  deriving DecidableEq

/-- The persistent store as User_app sees it. -/
structure UserDb where
  vehicles : List VehicleRow
  events : List EventRow
  nextVehicleId : Nat
  deriving DecidableEq

/-- Which optional columns the live vehicles table defines.  A statement
naming a column the schema lacks fails at prepare time. -/
structure DbSchema where
  vehiclesHasCreatedAt : Bool
  vehiclesHasUpdatedAt : Bool
  deriving DecidableEq

/-- Schema written by src/db_init.py (also what src/Dev_app.py's migration
produces): vehicles has created_at but no updated_at. -/
def dbInitSchema : DbSchema := ⟨true, false⟩

/-- Schema written by src/User_app.py's own init_db on a fresh file: vehicles
has neither created_at nor updated_at. -/
def userAppSchema : DbSchema := ⟨false, false⟩

/-- A hypothetical deployment whose vehicles table additionally defines
updated_at.  No initializer in this repository creates that column; the value
exists so the success path of the ingestion transaction can be exercised. -/
def migratedSchema : DbSchema := ⟨true, true⟩

/-- One subscriber's delivery queue (a Python list used as a FIFO). -/
abbrev Queue := List String

/-- The _sse_subscribers dict: vehicle reference string to list of queues.
Lock use in the source makes each operation atomic; each operation is one
function here. -/
abbrev Hub := List (String × List Queue)

/-- Queues currently registered under a reference (dict get with default). -/
def hubGet (h : Hub) (k : String) : List Queue :=
  (List.lookup k h).getD []

/-- src/User_app.py sse_subscribe: append a fresh empty queue under the key
(setdefault + append) and hand it back. -/
def sse_subscribe (vid : String) (h : Hub) : Queue × Hub :=
  ([],
   if (List.lookup vid h).isSome then
     h.map (fun e => if e.1 = vid then (e.1, e.2 ++ [[]]) else e)
   else h ++ [(vid, [[]])])

/-- src/User_app.py sse_unsubscribe: remove the first queue under the key
that compares equal to q (Python list.remove semantics), a no-op when the key
or the queue is absent. -/
def sse_unsubscribe (vid : String) (q : Queue) (h : Hub) : Hub :=
  h.map (fun e => if e.1 = vid then (e.1, e.2.erase q) else e)

/-- src/User_app.py sse_publish: append the payload to every queue currently
registered under exactly this key; other keys untouched. -/
def sse_publish (vid : String) (payload : String) (h : Hub) : Hub :=
  h.map (fun e => if e.1 = vid then (e.1, e.2.map (fun q => q ++ [payload])) else e)

/-- User_app process state: the store plus the in-memory hub. -/
structure ServerState where
  db : UserDb
  hub : Hub
  deriving DecidableEq

/-- Default value of the shared hardware secret (src/User_app.py line 17). -/
def HW_API_KEY : String := "REPLACE_WITH_STRONG_KEY"

/-- Response of the hardware endpoint: HTTP status and the success flag. -/
structure HwResp where
  status : Nat
  success : Bool
  deriving DecidableEq

/-- vid_raw selection at src/User_app.py line 353: vehicleID if present
(is-not-None test, so an empty string is kept), else vehicle_id. -/
def hwVidRaw (body : HwBody) : Option String :=
  match body.vehicleID with
  | some v => some v
  | none => body.vehicle_id

/-- notes = data.get("notes") or data.get("accidentDetails") or "". -/
def hwNotes (body : HwBody) : String :=
  strOr body.notes (strOr body.accidentDetails "")

/-- ts = data.get("timestamp") or datetime.utcnow().isoformat(). -/
def hwTs (body : HwBody) (now : String) : String :=
  strOr body.timestamp now

/-- UPDATE vehicles SET accident_details=?, updated_at=CURRENT_TIMESTAMP
WHERE vehicle_id=?  applied to the rows (the schema check lives in
hwTransaction). -/
def applySummaryByVid (vid notes now : String) (vs : List VehicleRow) : List VehicleRow :=
  vs.map (fun r =>
    if r.vehicle_id = vid then
      { r with accident_details := some notes, updated_at := some now }
    else r)

/-- Same UPDATE keyed on the numeric id column. -/
def applySummaryById (iid : Int) (notes now : String) (vs : List VehicleRow) : List VehicleRow :=
  vs.map (fun r =>
    if (r.id : Int) = iid then
      { r with accident_details := some notes, updated_at := some now }
    else r)

/-- cur.rowcount of the UPDATE keyed on vehicle_id. -/
def countVid (vid : String) (vs : List VehicleRow) : Nat :=
  vs.countP (fun r => r.vehicle_id == vid)

/-- cur.rowcount of the UPDATE keyed on the numeric id. -/
def countId (iid : Int) (vs : List VehicleRow) : Nat :=
  vs.countP (fun r => ((r.id : Int) == iid))

/-- INSERT INTO vehicles (vehicle_id, accident_details, created_at)
VALUES (?, ?, CURRENT_TIMESTAMP) at src/User_app.py line 387: names the
created_at column, so it fails when the live schema lacks it. -/
def insertMinimalVehicle (sc : DbSchema) (db : UserDb) (vid notes now : String) :
    Except Unit UserDb :=
  if sc.vehiclesHasCreatedAt then
    Except.ok
      { db with
        vehicles := db.vehicles ++
          [⟨db.nextVehicleId, vid, none, none, none, some notes, some now, none⟩],
        nextVehicleId := db.nextVehicleId + 1 }
  else Except.error ()

/-- The BEGIN..commit block of hardware_event (src/User_app.py lines 366-389)
on a working copy of the store: append the event row, update the summary by
vehicle_id, on rowcount 0 retry by numeric id, on rowcount 0 insert a minimal
vehicle row.  The summary UPDATE names the updated_at column, so under every
schema this repository creates it fails at prepare time and the whole
transaction aborts.  An error here means sqlite3 raised, nothing commits. -/
def hwTransaction (sc : DbSchema) (db : UserDb) (vid : String)
    (intensity lat lng : Option String) (ts : String) (raw : HwBody)
    (notes now : String) : Except Unit UserDb :=
  let db1 : UserDb := { db with events := db.events ++ [⟨vid, intensity, lat, lng, ts, raw⟩] }
  if sc.vehiclesHasUpdatedAt then
    let db2 : UserDb := { db1 with vehicles := applySummaryByVid vid notes now db1.vehicles }
    if countVid vid db1.vehicles ≠ 0 then Except.ok db2
    else
      match pyInt vid with
      | some iid =>
        let db3 : UserDb := { db2 with vehicles := applySummaryById iid notes now db2.vehicles }
        if countId iid db2.vehicles ≠ 0 then Except.ok db3
        else insertMinimalVehicle sc db3 vid notes now
      | none => insertMinimalVehicle sc db2 vid notes now
  else Except.error ()

/-- The transaction as hardware_event invokes it on the raw identifier. -/
def hwTxn (sc : DbSchema) (db : UserDb) (vraw : String) (body : HwBody) (now : String) :
    Except Unit UserDb :=
  hwTransaction sc db (pyStrip vraw) body.intensity body.lat body.lng
    (hwTs body now) body (hwNotes body) now

/-- json.dumps of the SSE payload dict built at src/User_app.py line 391,
kept as a field-joined rendering. -/
def hwPayload (vid : String) (intensity lat lng : Option String) (ts notes : String) : String :=
  "accident_event|" ++ vid ++ "|" ++ intensity.getD "null" ++ "|" ++ lat.getD "null" ++
    "|" ++ lng.getD "null" ++ "|" ++ ts ++ "|" ++ notes

/-- src/User_app.py lines 347-393, hardware_event: API-key gate, vehicleID
presence check (None only; an empty string passes), then the storage
transaction; only after commit is the event published to the hub under the
stripped identifier string.  A storage failure surfaces as 500 with the
request's state unchanged (rollback on connection teardown). -/
def hardware_event (sc : DbSchema) (st : ServerState) (key : Option String)
    (body : HwBody) (now : String) : HwResp × ServerState :=
  if key = some HW_API_KEY then
    match hwVidRaw body with
    | none => (⟨400, false⟩, st)
    | some vraw =>
      match hwTxn sc st.db vraw body now with
      | Except.error _ => (⟨500, false⟩, st)
      | Except.ok db2 =>
        (⟨201, true⟩,
         ⟨db2,
          sse_publish (pyStrip vraw)
            (hwPayload (pyStrip vraw) body.intensity body.lat body.lng
              (hwTs body now) (hwNotes body)) st.hub⟩)
  else (⟨401, false⟩, st)

/-- Response of User_app's add_vehicle: status plus success flag. -/
structure ApiResp where
  status : Nat
  success : Bool
  deriving DecidableEq

namespace UserApp

/-- src/User_app.py lines 205-224, add_vehicle: accept vehicle_id (preferred)
or legacy id, strip it, reject empty; INSERT .. ON CONFLICT(vehicle_id) DO
UPDATE SET model, owner, registration (the conflict clause does not touch
accident_details, and the statement never names created_at or updated_at, so
on conflict both keep their stored values; on a fresh insert accident_details
is NULL and created_at takes its column default where the column exists). -/
def add_vehicle (db : UserDb) (vehicle_id_in id_in model_in owner_in registration_in : Option String)
    (now : String) : ApiResp × UserDb :=
  let vidRaw : Option String :=
    match vehicle_id_in with
    | some v => some v
    | none => id_in
  match vidRaw with
  | none => (⟨400, false⟩, db)
  | some raw =>
    let vid := pyStrip raw
    if vid = "" then (⟨400, false⟩, db)
    else
      let model := model_in.getD ""
      let owner := owner_in.getD ""
      let registration := registration_in.getD ""
      if db.vehicles.any (fun r => r.vehicle_id == vid) then
        (⟨201, true⟩,
         { db with
           vehicles := db.vehicles.map (fun r =>
             if r.vehicle_id = vid then
               { r with model := some model, owner := some owner,
                        registration := some registration }
             else r) })
      else
        (⟨201, true⟩,
         { db with
           vehicles := db.vehicles ++
             [⟨db.nextVehicleId, vid, some model, some owner, some registration,
               none, some now, none⟩],
           nextVehicleId := db.nextVehicleId + 1 })

/-- src/User_app.py lines 226-233, GET /vehicle/(vid): resolve, 404 when the
resolver finds nothing, else 200 with the row; modeled as status and the
found flag. -/
def get_vehicle (db : UserDb) (vid : String) : Nat × Bool :=
  match find_vehicle_by_identifier db.vehicles (some vid) with
  | none => (404, false)
  | some _ => (200, true)

/-- src/User_app.py lines 288-344, POST /validateID: falsy-or over vehicleID
then vehicle_id, strip, 400 when empty; resolve, 200 with valid=false on a
miss, 200 with valid=true on a hit; modeled as status and the valid flag. -/
def validate_id (db : UserDb) (vehicleID vehicle_id : Option String) : Nat × Bool :=
  let vid := pyStrip (strOr vehicleID (strOr vehicle_id ""))
  if vid = "" then (400, false)
  else
    match find_vehicle_by_identifier db.vehicles (some vid) with
    | none => (200, false)
    | some _ => (200, true)

end UserApp

/-- One frame on the SSE wire: the connected acknowledgement, a published
event payload, or the empty keep-alive object. -/
inductive Frame where
  | connected (vid : String)
  | event (payload : String)
  | heartbeat
  deriving DecidableEq

/-- State of one event_stream generator (src/User_app.py lines 398-414): its
queue, the idle-poll counter, and the frames emitted so far in order. -/
structure SessionState where
  q : List String
  idle : Nat
  out : List Frame
  deriving DecidableEq

/-- One observable step against a session: a publish lands a payload on its
queue, or the generator body runs one loop iteration (poll). -/
inductive SessionAct where
  | deliver (payload : String)
  | poll
  deriving DecidableEq

/-- On entry the generator immediately yields the connected frame. -/
def session_start (vid : String) : SessionState :=
  ⟨[], 0, [Frame.connected vid]⟩

/-- One loop iteration: pop and emit the queue head when present (the idle
counter is untouched); otherwise sleep, bump the idle counter and after ten
consecutive empty polls emit a heartbeat and reset. -/
def session_step (s : SessionState) : SessionAct → SessionState
  | SessionAct.deliver p => ⟨s.q ++ [p], s.idle, s.out⟩
  | SessionAct.poll =>
    match s.q with
    | p :: rest => ⟨rest, s.idle, s.out ++ [Frame.event p]⟩
    | [] =>
      if s.idle + 1 ≥ 10 then ⟨[], 0, s.out ++ [Frame.heartbeat]⟩
      else ⟨[], s.idle + 1, s.out⟩

/-- A finite interleaving of publishes and generator iterations. -/
def session_run (vid : String) (acts : List SessionAct) : SessionState :=
  acts.foldl session_step (session_start vid)

/-- The payloads published to this session's reference, in publish order. -/
def pubsOf (acts : List SessionAct) : List String :=
  acts.filterMap (fun a =>
    match a with
    | SessionAct.deliver p => some p
    | SessionAct.poll => none)

/-- The event payloads among a frame sequence, in emission order. -/
def eventPayloads (fs : List Frame) : List String :=
  fs.filterMap (fun f =>
    match f with
    | Frame.event p => some p
    | _ => none)

/-- The finally-block of stream_vehicle (src/User_app.py lines 413-414): on
every generator exit path, normal or abnormal, the handle is unsubscribed. -/
def stream_vehicle_close (vid : String) (q : Queue) (h : Hub) : Hub :=
  sse_unsubscribe vid q h

/-- One row of accident_events as Dev_app writes it (vehicle_id, details,
meta_json; event_time takes its column default, the current time). -/
structure DevEventRow where
  vehicle_id : String
  details : String
  meta_json : Option String
  event_time : String
  deriving DecidableEq

/-- The persistent store as Dev_app sees it after its migration. -/
structure DevDb where
  vehicles : List VehicleRow
  events : List DevEventRow
  nextVehicleId : Nat
  deriving DecidableEq

/-- Response of Dev_app's add_vehicle: status and the reported action. -/
structure DevResp where
  status : Nat
  action : Option String
  deriving DecidableEq

namespace DevApp

/-- src/Dev_app.py lines 99-189, add_vehicle (non-preflight, valid JSON):
strip the fields, reject an empty vehicle_id; INSERT OR IGNORE the row, then
select it back; when the select finds nothing report created/201 (the code's
own comment calls this unlikely); otherwise UPDATE model, owner,
registration, accident_details and set created_at to CURRENT_TIMESTAMP and
report updated/200.  Either way append an accident_events row. -/
def add_vehicle (db : DevDb)
    (vehicle_id_in model_in owner_in registration_in accident_details_in : Option String)
    (meta : Option String) (now : String) : DevResp × DevDb :=
  let vid := pyStrip (strOr vehicle_id_in "")
  let model := pyStrip (strOr model_in "")
  let owner := pyStrip (strOr owner_in "")
  let registration := pyStrip (strOr registration_in "")
  let details := pyStrip (strOr accident_details_in "")
  if vid = "" then (⟨400, none⟩, db)
  else
    let db1 : DevDb :=
      if db.vehicles.any (fun r => r.vehicle_id == vid) then db
      else
        { db with
          vehicles := db.vehicles ++
            [⟨db.nextVehicleId, vid, some model, some owner, some registration,
              some details, some now, none⟩],
          nextVehicleId := db.nextVehicleId + 1 }
    match db1.vehicles.find? (fun r => r.vehicle_id == vid) with
    | none =>
      (⟨201, some "created"⟩,
       { db1 with events := db1.events ++ [⟨vid, details, meta, now⟩] })
    | some _ =>
      let db2 : DevDb :=
        { db1 with
          vehicles := db1.vehicles.map (fun r =>
            if r.vehicle_id = vid then
              { r with model := some model, owner := some owner,
                       registration := some registration,
                       accident_details := some details,
                       created_at := some now }
            else r) }
      (⟨200, some "updated"⟩,
       { db2 with events := db2.events ++ [⟨vid, details, meta, now⟩] })

end DevApp

/-- The demo vehicle row inserted by src/db_init.py into a fresh store. -/
def demoVehicle : VehicleRow :=
  ⟨1, "VHL2023", some "Audi A3", some "Aravindhan", some "TN-09-AB-0009",
   some "No recent accidents reported.", some "2025-01-01 00:00:00", none⟩

/-- The store right after src/db_init.py ran. -/
def demoDb : UserDb := ⟨[demoVehicle], [], 2⟩

/-- User_app process state over the demo store, no live subscribers. -/
def demoState : ServerState := ⟨demoDb, []⟩

/-- A well-formed hardware event payload aimed at the demo vehicle. -/
def hwBody1 : HwBody :=
  { vehicleID := some "VHL2023", intensity := some "4.5", lat := some "12.34",
    lng := some "56.78", notes := some "rear collision" }

/-- A hardware event payload whose identifier carries surrounding whitespace. -/
def hwBodyPadded : HwBody :=
  { vehicleID := some " VHL2023 ", notes := some "side collision" }

/-- A hub with two subscribers under the alias key and one under the numeric
key string, as after three stream-open calls. -/
def hub0 : Hub := [("VHL2023", [[], ["a"]]), ("7", [[]])]

/-- A vehicles row that predates the upsert exercised against it. -/
def devRow0 : VehicleRow :=
  ⟨1, "VHL2023", some "Audi A3", some "Old Owner", some "REG1",
   some "old summary", some "2025-01-01 00:00:00", none⟩

/-- Dev_app store holding only devRow0. -/
def devDb0 : DevDb := ⟨[devRow0], [], 2⟩

/-- User_app store holding only devRow0. -/
def userDb0 : UserDb := ⟨[devRow0], [], 2⟩

/-! Helper lemmas shared by several claims. -/

theorem find?_eq_of_unique {α : Type} (p : α → Bool) {l : List α} {a : α}
    (ha : a ∈ l) (hp : p a = true) (hu : ∀ b ∈ l, p b = true → b = a) :
    l.find? p = some a := by
  induction l with
  | nil => cases ha
  | cons c t ih =>
    by_cases hc : p c = true
    · have hca : c = a := hu c (List.mem_cons_self c t) hc
      subst hca
      simp [List.find?, hc]
    · have hc' : p c = false := by simpa using hc
      rcases List.mem_cons.mp ha with h1 | h2
      · exact absurd (h1 ▸ hp) (by simp [hc'])
      · simp only [List.find?, hc']
        exact ih h2 (fun b hb hpb => hu b (List.mem_cons_of_mem c hb) hpb)

theorem find?_isSome_of_mem {α : Type} (p : α → Bool) {l : List α} {a : α}
    (ha : a ∈ l) (hp : p a = true) : (l.find? p).isSome := by
  induction l with
  | nil => cases ha
  | cons c t ih =>
    by_cases hc : p c = true
    · simp [List.find?, hc]
    · have hc' : p c = false := by simpa using hc
      rcases List.mem_cons.mp ha with h1 | h2
      · exact absurd (h1 ▸ hp) (by simp [hc'])
      · simp only [List.find?, hc']
        exact ih h2

theorem hubGet_mapUpdate (h : Hub) (k : String) (f : List Queue → List Queue)
    (hf : f [] = []) :
    hubGet (h.map (fun e => if e.1 = k then (e.1, f e.2) else e)) k = f (hubGet h k) := by
  induction h with
  | nil => simp [hubGet, List.lookup, hf]
  | cons e t ih =>
    obtain ⟨a, b⟩ := e
    by_cases he : a = k
    · subst he
      have hfe : (if ((a, b) : String × List Queue).1 = a then ((a, b).1, f (a, b).2) else (a, b))
          = (a, f b) := by simp
      rw [List.map_cons, hfe]
      simp [hubGet, List.lookup]
    · have hfe : (if ((a, b) : String × List Queue).1 = k then ((a, b).1, f (a, b).2) else (a, b))
          = (a, b) := by simp [he]
      rw [List.map_cons, hfe]
      have hk : (k == a) = false := by simpa using fun hh => he hh.symm
      have ih' := ih
      simp only [hubGet, List.lookup, hk] at ih' ⊢
      exact ih'

theorem hubGet_mapUpdate_ne (h : Hub) (k k' : String) (f : List Queue → List Queue)
    (hk : k' ≠ k) :
    hubGet (h.map (fun e => if e.1 = k then (e.1, f e.2) else e)) k' = hubGet h k' := by
  induction h with
  | nil => simp [hubGet, List.lookup]
  | cons e t ih =>
    obtain ⟨a, b⟩ := e
    by_cases he : a = k
    · subst he
      have hfe : (if ((a, b) : String × List Queue).1 = a then ((a, b).1, f (a, b).2) else (a, b))
          = (a, f b) := by simp
      rw [List.map_cons, hfe]
      have hk' : (k' == a) = false := by simpa using hk
      have ih' := ih
      simp only [hubGet, List.lookup, hk'] at ih' ⊢
      exact ih'
    · have hfe : (if ((a, b) : String × List Queue).1 = k then ((a, b).1, f (a, b).2) else (a, b))
          = (a, b) := by simp [he]
      rw [List.map_cons, hfe]
      by_cases hka : k' = a
      · subst hka
        simp [hubGet, List.lookup]
      · have hka' : (k' == a) = false := by simpa using hka
        have ih' := ih
        simp only [hubGet, List.lookup, hka'] at ih' ⊢
        exact ih'

/-! Claim C2: the identifier resolver follows the specified order. -/

/-- C2: for every input, the code's resolver (find_vehicle_by_identifier)
computes exactly the spec's ordered algorithm (resolve_spec): missing, empty
or whitespace-only input is NotFound; otherwise the exact case-sensitive
alias lookup on the stripped input is tried first; on a miss, if the trimmed
input parses as an integer, the surrogate numeric key lookup; otherwise
NotFound.  Both functions only read the rows: the resolver performs no
writes, which the type (rows in, optional match out) makes structural. -/
theorem find_vehicle_by_identifier_spec_c2 :
    ∀ (vs : List VehicleRow) (ident : Option String),
      find_vehicle_by_identifier vs ident = resolve_spec vs ident := by
  intro vs ident
  cases ident with
  | none => rfl
  | some s =>
    simp only [find_vehicle_by_identifier, resolve_spec, query_vehicles_by_vid,
      query_vehicles_by_id]
    by_cases h : pyStrip s = ""
    · simp [h]
    · simp only [if_neg h]
      cases hf : vs.find? (fun r => r.vehicle_id == pyStrip s) with
      | some r => rfl
      | none =>
        dsimp only
        cases hi : pyInt (pyStrip s) with
        | none => rfl
        | some n =>
          dsimp only
          cases hg : vs.find? (fun r => ((r.id : Int) == n)) with
          | some r => rfl
          | none => rfl

/-! Claim C6: publish delivers under the exact reference string only. -/

/-- C6: publishing under a reference string appends exactly one copy of the
payload to every queue currently registered under that exact string, and
leaves the queues registered under every other string (for instance the
numeric-key string when publishing under the alias, and vice versa)
untouched. -/
theorem sse_publish_exact_c6 (h : Hub) (ref ev : String) :
    hubGet (sse_publish ref ev h) ref = (hubGet h ref).map (fun q => q ++ [ev]) ∧
    ∀ k, k ≠ ref → hubGet (sse_publish ref ev h) k = hubGet h k := by
  constructor
  · exact hubGet_mapUpdate h ref (fun arr => arr.map (fun q => q ++ [ev])) rfl
  · intro k hk
    exact hubGet_mapUpdate_ne h ref k (fun arr => arr.map (fun q => q ++ [ev])) hk

/-- Witness for C6 at a concrete hub: both alias-keyed queues receive one
copy, the numeric-key subscriber receives nothing. -/
theorem sse_publish_exact_c6_witness :
    hubGet (sse_publish "VHL2023" "E" hub0) "VHL2023" = [["E"], ["a", "E"]] ∧
    hubGet (sse_publish "VHL2023" "E" hub0) "7" = [[]] := by
  have h := sse_publish_exact_c6 hub0 "VHL2023" "E"
  refine ⟨?_, ?_⟩
  · rw [h.1]; rfl
  · rw [h.2 "7" (by decide)]; rfl

/-! Claim C7: live stream session frame order and guaranteed unsubscribe. -/

theorem session_step_out_extends (s : SessionState) (a : SessionAct) :
    ∃ ext, (session_step s a).out = s.out ++ ext := by
  cases a with
  | deliver p => exact ⟨[], by simp [session_step]⟩
  | poll =>
    cases hq : s.q with
    | cons p rest => exact ⟨[Frame.event p], by simp [session_step, hq]⟩
    | nil =>
      by_cases hi : s.idle + 1 ≥ 10
      · exact ⟨[Frame.heartbeat], by simp [session_step, hq, hi]⟩
      · exact ⟨[], by simp [session_step, hq, hi]⟩

theorem session_foldl_out_extends (acts : List SessionAct) :
    ∀ s : SessionState, ∃ ext, (acts.foldl session_step s).out = s.out ++ ext := by
  induction acts with
  | nil => exact fun s => ⟨[], by simp⟩
  | cons a t ih =>
    intro s
    obtain ⟨e1, he1⟩ := session_step_out_extends s a
    obtain ⟨e2, he2⟩ := ih (session_step s a)
    exact ⟨e1 ++ e2, by rw [List.foldl_cons, he2, he1, List.append_assoc]⟩

theorem session_conservation (acts : List SessionAct) :
    ∀ s : SessionState,
      eventPayloads (acts.foldl session_step s).out ++ (acts.foldl session_step s).q =
        eventPayloads s.out ++ s.q ++ pubsOf acts := by
  induction acts with
  | nil => intro s; simp [pubsOf]
  | cons a t ih =>
    intro s
    rw [List.foldl_cons, ih (session_step s a)]
    cases a with
    | deliver p =>
      simp [session_step, pubsOf, List.filterMap_cons, List.append_assoc]
    | poll =>
      cases hq : s.q with
      | cons p rest =>
        simp [session_step, hq, pubsOf, eventPayloads, List.filterMap_append,
          List.filterMap_cons, List.append_assoc]
      | nil =>
        by_cases hi : s.idle + 1 ≥ 10
        · simp [session_step, hq, hi, pubsOf, eventPayloads, List.filterMap_append,
            List.filterMap_cons]
        · simp [session_step, hq, hi, pubsOf, List.filterMap_cons]

/-- C7: for every interleaving of publishes and generator iterations, the
session's first emitted frame is the connection acknowledgement, and the
event frames that follow are exactly the published payloads in publish order
(the emitted prefix plus the still-queued suffix reassemble the publish
sequence); the concrete spec scenario — open a stream, publish one event,
one iteration — yields exactly the ack frame then that one event frame; and
the close path always erases the session's handle from the hub's list for
its reference (the finally-block unsubscribe). -/
theorem stream_session_c7 (vid : String) :
    (∀ acts : List SessionAct, ∃ rest,
        (session_run vid acts).out = Frame.connected vid :: rest ∧
        eventPayloads rest ++ (session_run vid acts).q = pubsOf acts) ∧
    (∀ e : String,
        (session_run vid [SessionAct.deliver e, SessionAct.poll]).out =
          [Frame.connected vid, Frame.event e]) ∧
    (∀ (h : Hub) (q : Queue),
        hubGet (stream_vehicle_close vid q h) vid = (hubGet h vid).erase q) := by
  refine ⟨?_, ?_, ?_⟩
  · intro acts
    obtain ⟨ext, hext⟩ := session_foldl_out_extends acts (session_start vid)
    have hc := session_conservation acts (session_start vid)
    refine ⟨ext, by simpa [session_run, session_start] using hext, ?_⟩
    rw [session_run] at *
    rw [hext] at hc
    simpa [session_start, eventPayloads, List.filterMap_cons] using hc
  · intro e; rfl
  · intro h q
    exact hubGet_mapUpdate h vid (fun arr => arr.erase q) rfl

/-! Stripping is idempotent, so the resolver treats an input and its stripped
form alike (User_app strips once in validate_id and again inside the
resolver). -/

theorem dropWhile_head?_not (l : List Char) :
    ∀ a, (l.dropWhile isPySpace).head? = some a → isPySpace a = false := by
  induction l with
  | nil => intro a h; simp [List.dropWhile] at h
  | cons c t ih =>
    intro a h
    by_cases hc : isPySpace c = true
    · rw [List.dropWhile_cons_of_pos hc] at h
      exact ih a h
    · have hc' : isPySpace c = false := by simpa using hc
      rw [List.dropWhile_cons_of_neg (by simp [hc'])] at h
      have : c = a := by simpa using h
      exact this ▸ hc'

theorem dropWhile_eq_self_of_head (l : List Char)
    (h : ∀ a, l.head? = some a → isPySpace a = false) :
    l.dropWhile isPySpace = l := by
  cases l with
  | nil => rfl
  | cons c t =>
    have hc := h c rfl
    have hcn : ¬ isPySpace c = true := by simp [hc]
    rw [List.dropWhile_cons_of_neg hcn]

theorem exists_append_dropWhile (l : List Char) :
    ∃ t, t ++ l.dropWhile isPySpace = l := by
  induction l with
  | nil => exact ⟨[], rfl⟩
  | cons c t ih =>
    by_cases hc : isPySpace c = true
    · obtain ⟨u, hu⟩ := ih
      exact ⟨c :: u, by rw [List.dropWhile_cons_of_pos hc, List.cons_append, hu]⟩
    · have hc' : isPySpace c = false := by simpa using hc
      exact ⟨[], by rw [List.dropWhile_cons_of_neg (by simp [hc']), List.nil_append]⟩

theorem pyStripL_idem (cs : List Char) : pyStripL (pyStripL cs) = pyStripL cs := by
  unfold pyStripL
  obtain ⟨t, ht⟩ := exists_append_dropWhile (cs.dropWhile isPySpace).reverse
  have hRA : ((cs.dropWhile isPySpace).reverse.dropWhile isPySpace).reverse ++ t.reverse
      = cs.dropWhile isPySpace := by
    have h2 := congrArg List.reverse ht
    rw [List.reverse_append] at h2
    rw [h2, List.reverse_reverse]
  have hhead : ∀ a,
      ((cs.dropWhile isPySpace).reverse.dropWhile isPySpace).reverse.head? = some a →
      isPySpace a = false := by
    intro a ha
    apply dropWhile_head?_not cs a
    cases hr : ((cs.dropWhile isPySpace).reverse.dropWhile isPySpace).reverse with
    | nil => rw [hr] at ha; cases ha
    | cons x xs =>
      rw [hr] at ha
      have hxa : x = a := by simpa using ha
      rw [hr, List.cons_append] at hRA
      rw [← hRA]
      simpa using hxa
  rw [dropWhile_eq_self_of_head _ hhead, List.reverse_reverse,
    dropWhile_eq_self_of_head _ (fun a ha => dropWhile_head?_not _ a ha)]

theorem pyStrip_idem (s : String) : pyStrip (pyStrip s) = pyStrip s := by
  simp [pyStrip, pyStripL_idem]

theorem find_vehicle_strip (vs : List VehicleRow) (s : String) :
    find_vehicle_by_identifier vs (some (pyStrip s)) =
      find_vehicle_by_identifier vs (some s) := by
  simp [find_vehicle_by_identifier, pyStrip_idem]

/-! Claim C10: not-found signaling differs between the two lookup endpoints. -/

/-- C10 as amended: for every identifier that is non-empty after stripping
and that the resolver cannot match, POST /validateID answers 200 with
valid=false while GET /vehicle/(vid) answers 404 — the two public lookup
endpoints disagree on the not-found status code.  (The amendment excludes
empty/whitespace-only identifiers, where validate_id answers 400 before
resolving; see the counterexample.) -/
theorem validate_vs_get_c10 (db : UserDb) (vid : String)
    (hne : pyStrip vid ≠ "")
    (hmiss : find_vehicle_by_identifier db.vehicles (some vid) = none) :
    UserApp.validate_id db (some vid) none = (200, false) ∧
    UserApp.get_vehicle db vid = (404, false) := by
  constructor
  · have hv : vid ≠ "" := by
      intro h
      exact hne (by rw [h]; rfl)
    have hor : strOr (some vid) (strOr none "") = vid := by simp [strOr, hv]
    have hm2 : find_vehicle_by_identifier db.vehicles (some (pyStrip vid)) = none := by
      rw [find_vehicle_strip]; exact hmiss
    simp [UserApp.validate_id, hor, hne, hm2]
  · simp [UserApp.get_vehicle, hmiss]

/-- Witness for C10 at a concrete unresolvable identifier. -/
theorem validate_vs_get_c10_witness :
    UserApp.validate_id demoDb (some "NOPE123") none = (200, false) ∧
    UserApp.get_vehicle demoDb "NOPE123" = (404, false) :=
  validate_vs_get_c10 demoDb "NOPE123" (by decide) (by decide)

/-- Counterexample to C10 as stated: a whitespace-only identifier is one the
resolver cannot match, yet POST /validateID answers 400, not 200. -/
theorem validate_vs_get_c10_cx :
    find_vehicle_by_identifier demoDb.vehicles (some " ") = none ∧
    UserApp.validate_id demoDb (some " ") none = (400, false) ∧
    (400 : Nat) ≠ 200 := by decide

/-! Claims C9 and C5: the two add_vehicle upserts. -/

theorem pyStrip_strOr_some (s : String) : pyStrip (strOr (some s) "") = pyStrip s := by
  by_cases h : s = ""
  · simp [strOr, h]
  · simp [strOr, h]

theorem any_vid_map_update (l : List VehicleRow) (vid : String)
    (f : VehicleRow → VehicleRow)
    (hf : ∀ r, (f r).vehicle_id = r.vehicle_id)
    (h : l.any (fun r => r.vehicle_id == vid) = true) :
    (l.map f).any (fun r => r.vehicle_id == vid) = true := by
  obtain ⟨r, hr, hpr⟩ := List.any_eq_true.mp h
  exact List.any_eq_true.mpr ⟨f r, List.mem_map_of_mem f hr, by rw [hf r]; exact hpr⟩

/-- C9: every non-preflight, valid-JSON call to Dev_app's /add_vehicle whose
vehicle_id survives stripping reports action updated with status 200 — also
on the very first request for an unseen vehicle_id, which does create the
row (second conjunct): the created/201 branch is unreachable because the
select after INSERT OR IGNORE always finds a row. -/
theorem dev_add_vehicle_always_updated_c9
    (db : DevDb) (vin m o rg det meta : Option String) (now : String)
    (hne : pyStrip (strOr vin "") ≠ "") :
    (DevApp.add_vehicle db vin m o rg det meta now).1 = ⟨200, some "updated"⟩ ∧
    ((DevApp.add_vehicle db vin m o rg det meta now).2.vehicles.any
      (fun r => r.vehicle_id == pyStrip (strOr vin "")) = true) := by
  simp only [DevApp.add_vehicle]
  rw [if_neg hne]
  by_cases hany : db.vehicles.any (fun r => r.vehicle_id == pyStrip (strOr vin "")) = true
  · simp only [hany, if_true]
    obtain ⟨r, hr, hpr⟩ := List.any_eq_true.mp hany
    have hsome := find?_isSome_of_mem
      (fun r => r.vehicle_id == pyStrip (strOr vin "")) hr hpr
    obtain ⟨r0, hr0⟩ := Option.isSome_iff_exists.mp hsome
    rw [hr0]
    refine ⟨rfl, ?_⟩
    apply any_vid_map_update _ _ _ ?_ hany
    intro r'
    by_cases hr' : r'.vehicle_id = pyStrip (strOr vin "")
    · simp [hr']
    · simp [hr']
  · have hany' : db.vehicles.any (fun r => r.vehicle_id == pyStrip (strOr vin "")) = false := by
      simpa using hany
    simp only [hany', Bool.false_eq_true, if_false]
    have hsome : ((db.vehicles ++ [(⟨db.nextVehicleId, pyStrip (strOr vin ""),
        some (pyStrip (strOr m "")), some (pyStrip (strOr o "")),
        some (pyStrip (strOr rg "")), some (pyStrip (strOr det "")), some now,
        none⟩ : VehicleRow)]).find? (fun r => r.vehicle_id == pyStrip (strOr vin ""))).isSome :=
      find?_isSome_of_mem _
        (List.mem_append_right db.vehicles (List.mem_singleton.mpr rfl)) (by simp)
    obtain ⟨r0, hr0⟩ := Option.isSome_iff_exists.mp hsome
    rw [hr0]
    refine ⟨rfl, ?_⟩
    apply any_vid_map_update _ _ _ ?_ ?_
    · intro r'
      by_cases hr' : r'.vehicle_id = pyStrip (strOr vin "")
      · simp [hr']
      · simp [hr']
    · exact List.any_eq_true.mpr
        ⟨_, List.mem_append_right db.vehicles (List.mem_singleton.mpr rfl), by simp⟩

/-- Witness for C9: the first-ever request for an unseen vehicle_id against
an empty store still reports updated/200 and creates the row. -/
theorem dev_add_vehicle_always_updated_c9_witness :
    (DevApp.add_vehicle ⟨[], [], 1⟩ (some "NEWCAR1") none none none none none "T0").1
      = ⟨200, some "updated"⟩ ∧
    ((DevApp.add_vehicle ⟨[], [], 1⟩ (some "NEWCAR1") none none none none none "T0").2.vehicles.any
      (fun r => r.vehicle_id == pyStrip (strOr (some "NEWCAR1") "")) = true) :=
  dev_add_vehicle_always_updated_c9 ⟨[], [], 1⟩ (some "NEWCAR1") none none none none none
    "T0" (by decide)

/-- C5 as amended: on an upsert against an existing alias, Dev_app's
add_vehicle overwrites the descriptive fields and the summary and keeps the
surrogate key, but resets created_at to the current time; User_app's
add_vehicle overwrites only the descriptive fields (model, owner,
registration), keeping the summary, the surrogate key and the stored
creation timestamp untouched. -/
theorem add_vehicle_upsert_c5
    (ddb : DevDb) (udb : UserDb) (drow urow : VehicleRow)
    (vin m o rg det : String) (meta : Option String) (now : String)
    (hd : drow ∈ ddb.vehicles) (hdv : drow.vehicle_id = pyStrip vin)
    (hne : pyStrip vin ≠ "")
    (hu : urow ∈ udb.vehicles) (huv : urow.vehicle_id = pyStrip vin) :
    ({ drow with
        model := some (pyStrip m), owner := some (pyStrip o),
        registration := some (pyStrip rg), accident_details := some (pyStrip det),
        created_at := some now }
      ∈ (DevApp.add_vehicle ddb (some vin) (some m) (some o) (some rg) (some det)
          meta now).2.vehicles) ∧
    ({ urow with model := some m, owner := some o, registration := some rg }
      ∈ (UserApp.add_vehicle udb (some vin) none (some m) (some o) (some rg)
          now).2.vehicles) := by
  constructor
  · have hne' : pyStrip (strOr (some vin) "") ≠ "" := by
      rw [pyStrip_strOr_some]; exact hne
    have hdv' : drow.vehicle_id = pyStrip (strOr (some vin) "") := by
      rw [pyStrip_strOr_some]; exact hdv
    have hany : ddb.vehicles.any
        (fun r => r.vehicle_id == pyStrip (strOr (some vin) "")) = true :=
      List.any_eq_true.mpr ⟨drow, hd, by simp [hdv']⟩
    obtain ⟨r, hr, hpr⟩ := List.any_eq_true.mp hany
    have hsome := find?_isSome_of_mem
      (fun r => r.vehicle_id == pyStrip (strOr (some vin) "")) hr hpr
    cases hf2 : ddb.vehicles.find?
        (fun r => r.vehicle_id == pyStrip (strOr (some vin) "")) with
    | none => rw [hf2] at hsome; simp at hsome
    | some r0 =>
      simp only [DevApp.add_vehicle, if_neg hne', hany, if_true, hf2]
      have hmem := List.mem_map_of_mem (fun r =>
        if r.vehicle_id = pyStrip (strOr (some vin) "") then
          { r with model := some (pyStrip (strOr (some m) "")),
                   owner := some (pyStrip (strOr (some o) "")),
                   registration := some (pyStrip (strOr (some rg) "")),
                   accident_details := some (pyStrip (strOr (some det) "")),
                   created_at := some now }
        else r) hd
      simpa [hdv', pyStrip_strOr_some] using hmem
  · have hany : udb.vehicles.any (fun r => r.vehicle_id == pyStrip vin) = true :=
      List.any_eq_true.mpr ⟨urow, hu, by simp [huv]⟩
    simp only [UserApp.add_vehicle, if_neg hne, hany, if_true, Option.getD]
    have hmem := List.mem_map_of_mem (fun r =>
      if r.vehicle_id = pyStrip vin then
        { r with model := some m, owner := some o, registration := some rg }
      else r) hu
    simpa [huv] using hmem

/-- Witness for C5 at a concrete store with one existing row each. -/
theorem add_vehicle_upsert_c5_witness :
    ({ devRow0 with
        model := some (pyStrip "Audi A4"), owner := some (pyStrip "New Owner"),
        registration := some (pyStrip "REG2"), accident_details := some (pyStrip "new summary"),
        created_at := some "2026-10-12 00:00:00" }
      ∈ (DevApp.add_vehicle devDb0 (some "VHL2023") (some "Audi A4") (some "New Owner")
          (some "REG2") (some "new summary") none "2026-10-12 00:00:00").2.vehicles) ∧
    ({ devRow0 with
        model := some "Audi A4", owner := some "New Owner",
        registration := some "REG2" }
      ∈ (UserApp.add_vehicle userDb0 (some "VHL2023") none (some "Audi A4")
          (some "New Owner") (some "REG2") "2026-10-12 00:00:00").2.vehicles) :=
  add_vehicle_upsert_c5 devDb0 userDb0 devRow0 devRow0 "VHL2023" "Audi A4" "New Owner"
    "REG2" "new summary" none "2026-10-12 00:00:00" (by decide) (by decide) (by decide)
    (by decide) (by decide)

/-- Counterexample to C5 as stated: Dev_app's upsert on an existing alias
changes created_at to the current time (the claim says it is left
unchanged), and User_app's upsert leaves the stored summary in place (the
claim says the summary is overwritten). -/
theorem add_vehicle_upsert_c5_cx :
    ((DevApp.add_vehicle devDb0 (some "VHL2023") (some "Audi A4") (some "New Owner")
        (some "REG2") (some "new summary") none "2026-10-12 00:00:00").2.vehicles.map
      (fun r => r.created_at) = [some "2026-10-12 00:00:00"]) ∧
    devRow0.created_at = some "2025-01-01 00:00:00" ∧
    ((UserApp.add_vehicle userDb0 (some "VHL2023") none (some "Audi A4")
        (some "New Owner") (some "REG2") "2026-10-12 00:00:00").2.vehicles.map
      (fun r => r.accident_details) = [some "old summary"]) ∧
    ("old summary" : String) ≠ "new summary" := by decide

/-! Claim C8: alias and rendered numeric key resolve to the same record. -/

/-- C8: under the registry's invariants (the row is stored, aliases and
surrogate keys are unique, the stored alias is a stripped non-empty token)
and the claim's proviso that no other vehicle's alias equals the rendered
numeric key, resolving the canonical alias and resolving any string that
strips to a rendering of the surrogate key (for instance its decimal form)
both return the same underlying vehicle record. -/
theorem resolver_roundtrip_c8
    (vs : List VehicleRow) (row : VehicleRow) (s : String)
    (hmem : row ∈ vs)
    (huniqA : ∀ b ∈ vs, b.vehicle_id = row.vehicle_id → b = row)
    (huniqI : ∀ b ∈ vs, b.id = row.id → b = row)
    (htrim : pyStrip row.vehicle_id = row.vehicle_id)
    (hneA : row.vehicle_id ≠ "")
    (hs : pyInt (pyStrip s) = some (row.id : Int))
    (hprov : ∀ b ∈ vs, b.vehicle_id = pyStrip s → b = row) :
    (find_vehicle_by_identifier vs (some row.vehicle_id)).map Prod.fst = some row ∧
    (find_vehicle_by_identifier vs (some s)).map Prod.fst = some row := by
  constructor
  · have hfa : vs.find? (fun r => r.vehicle_id == row.vehicle_id) = some row :=
      find?_eq_of_unique _ hmem (by simp)
        (fun b hb hpb => huniqA b hb (by simpa using hpb))
    simp only [find_vehicle_by_identifier, query_vehicles_by_vid, htrim]
    rw [if_neg hneA, hfa]
    rfl
  · have hsne : pyStrip s ≠ "" := by
      intro h
      rw [h] at hs
      have h0 : pyInt "" = none := rfl
      rw [h0] at hs
      exact Option.noConfusion hs
    cases hfa : vs.find? (fun r => r.vehicle_id == pyStrip s) with
    | some b =>
      have hbmem := List.mem_of_find?_eq_some hfa
      have hpb : b.vehicle_id = pyStrip s := by
        simpa using List.find?_some hfa
      have hb : b = row := hprov b hbmem hpb
      subst hb
      simp only [find_vehicle_by_identifier, query_vehicles_by_vid]
      rw [if_neg hsne, hfa]
      rfl
    | none =>
      have hfi : vs.find? (fun r => ((r.id : Int) == (row.id : Int))) = some row :=
        find?_eq_of_unique _ hmem (by simp)
          (fun b hb hpb => huniqI b hb (by exact_mod_cast (by simpa using hpb : ((b.id : Int) = (row.id : Int)))))
      simp only [find_vehicle_by_identifier, query_vehicles_by_vid, query_vehicles_by_id]
      rw [if_neg hsne, hfa, hs]
      dsimp only
      rw [hfi]
      rfl

/-- Witness for C8 at the demo store: alias "VHL2023" and the rendered
surrogate key "1" both resolve to the demo row. -/
theorem resolver_roundtrip_c8_witness :
    (find_vehicle_by_identifier demoDb.vehicles (some "VHL2023")).map Prod.fst
      = some demoVehicle ∧
    (find_vehicle_by_identifier demoDb.vehicles (some "1")).map Prod.fst
      = some demoVehicle := by
  have h := resolver_roundtrip_c8 demoDb.vehicles demoVehicle "1" (by decide) (by decide)
    (by decide) (by decide) (by decide) (by decide) (by decide)
  exact h

/-! Claims C1, C3, C4: the hardware ingestion endpoint. -/

theorem hwTransaction_ok_events (sc : DbSchema) (db : UserDb) (vid : String)
    (intensity lat lng : Option String) (ts : String) (raw : HwBody)
    (notes now : String) (db2 : UserDb)
    (h : hwTransaction sc db vid intensity lat lng ts raw notes now = Except.ok db2) :
    db2.events = db.events ++ [⟨vid, intensity, lat, lng, ts, raw⟩] := by
  simp only [hwTransaction, insertMinimalVehicle] at h
  repeat' split at h
  all_goals
    first
      | exact Except.noConfusion h
      | (injection h with h2; subst h2; rfl)

/-- C1: for every authorized, validated call to the hardware endpoint, the
event-log append and the registry summary update/insert run inside the one
BEGIN..commit transaction (hwTxn): if any statement of it fails, the call
answers 500 and the whole process state — store and hub both — is exactly
what it was (no partial write, no publish); if the transaction commits, the
call answers 201 with the committed store, and only then is the event
published to the hub, so no hub behavior can alter the committed store. -/
theorem hardware_event_transactional_c1
    (sc : DbSchema) (st : ServerState) (key : Option String) (body : HwBody)
    (now : String) (v : String)
    (hkey : key = some HW_API_KEY)
    (hvid : hwVidRaw body = some v) :
    (hwTxn sc st.db v body now = Except.error () →
      hardware_event sc st key body now = (⟨500, false⟩, st)) ∧
    (∀ db2, hwTxn sc st.db v body now = Except.ok db2 →
      hardware_event sc st key body now =
        (⟨201, true⟩,
         ⟨db2, sse_publish (pyStrip v)
            (hwPayload (pyStrip v) body.intensity body.lat body.lng
              (hwTs body now) (hwNotes body)) st.hub⟩)) := by
  subst hkey
  constructor
  · intro he
    simp [hardware_event, hvid, he]
  · intro db2 hok
    simp [hardware_event, hvid, hok]

/-- Witness for C1: under the schema db_init.py writes, the demo call's
transaction fails (its registry UPDATE names the missing updated_at column),
so the call answers 500 and leaves the state untouched. -/
theorem hardware_event_transactional_c1_witness :
    hwTxn dbInitSchema demoState.db "VHL2023" hwBody1 "T1" = Except.error () ∧
    hardware_event dbInitSchema demoState (some HW_API_KEY) hwBody1 "T1"
      = (⟨500, false⟩, demoState) := by
  refine ⟨rfl, ?_⟩
  exact (hardware_event_transactional_c1 dbInitSchema demoState (some HW_API_KEY)
    hwBody1 "T1" "VHL2023" rfl rfl).1 rfl

theorem hardware_event_no_success (sc : DbSchema)
    (hsc : sc.vehiclesHasUpdatedAt = false)
    (st : ServerState) (key : Option String) (body : HwBody) (now : String) :
    (hardware_event sc st key body now).1.success = false := by
  by_cases hk : key = some HW_API_KEY
  · cases hv : hwVidRaw body with
    | none => simp [hardware_event, hk, hv]
    | some vraw =>
      have htx : hwTxn sc st.db vraw body now = Except.error () := by
        simp [hwTxn, hwTransaction, hsc]
      simp [hardware_event, hk, hv, htx]
  · simp [hardware_event, hk]

/-- C3 (code bug): under both schemas this repository can create — the one
db_init.py/Dev_app.py write and the one User_app.py's own init_db writes —
no hardware ingestion ever succeeds, because the registry UPDATE names the
updated_at column that no initializer defines; concretely, the demo call
answers 500 and leaves the state untouched, so the registry summary never
becomes the ingested notes even once. -/
theorem hardware_event_ingestion_unreachable_c3 :
    (∀ (st : ServerState) (key : Option String) (body : HwBody) (now : String),
      (hardware_event dbInitSchema st key body now).1.success = false) ∧
    (∀ (st : ServerState) (key : Option String) (body : HwBody) (now : String),
      (hardware_event userAppSchema st key body now).1.success = false) ∧
    hardware_event dbInitSchema demoState (some HW_API_KEY) hwBody1 "T1"
      = (⟨500, false⟩, demoState) ∧
    demoVehicle.accident_details = some "No recent accidents reported." := by
  refine ⟨fun st key body now => hardware_event_no_success _ rfl st key body now,
    fun st key body now => hardware_event_no_success _ rfl st key body now, ?_, rfl⟩
  rfl

/-- C4 as amended: for every call whose transaction commits, the appended
event-log row stores as its vehicle reference the stripped raw identifier
string str(vid_raw).strip() — which equals the exact supplied token whenever
that token carries no surrounding whitespace — and never the canonical form
(alias or surrogate key) the resolution step may have matched. -/
theorem hardware_event_stores_trimmed_c4
    (sc : DbSchema) (st : ServerState) (key : Option String) (body : HwBody)
    (now : String) (v : String) (r : HwResp) (st2 : ServerState)
    (hvid : hwVidRaw body = some v)
    (hrun : hardware_event sc st key body now = (r, st2))
    (hok : r.status = 201) :
    st2.db.events = st.db.events ++
      [⟨pyStrip v, body.intensity, body.lat, body.lng, hwTs body now, body⟩] := by
  unfold hardware_event at hrun
  by_cases hk : key = some HW_API_KEY
  · rw [if_pos hk, hvid] at hrun
    dsimp only at hrun
    cases htx : hwTxn sc st.db v body now with
    | error e =>
      rw [htx] at hrun
      dsimp only at hrun
      injection hrun with h1 h2
      subst h1
      exact absurd hok (by decide)
    | ok db2 =>
      rw [htx] at hrun
      dsimp only at hrun
      injection hrun with h1 h2
      rw [← h2]
      exact hwTransaction_ok_events sc st.db (pyStrip v) body.intensity body.lat
        body.lng (hwTs body now) body (hwNotes body) now db2 htx
  · rw [if_neg hk] at hrun
    injection hrun with h1 h2
    subst h1
    exact absurd hok (by decide)

/-- Witness for C4: under a schema where the transaction can commit, the
demo ingestion appends exactly one event row carrying the stripped
identifier. -/
theorem hardware_event_stores_trimmed_c4_witness :
    (hardware_event migratedSchema demoState (some HW_API_KEY) hwBody1 "T1").2.db.events
      = demoState.db.events ++
        [⟨"VHL2023", some "4.5", some "12.34", some "56.78", "T1", hwBody1⟩] := by
  have h := hardware_event_stores_trimmed_c4 migratedSchema demoState (some HW_API_KEY)
    hwBody1 "T1" "VHL2023"
    (hardware_event migratedSchema demoState (some HW_API_KEY) hwBody1 "T1").1
    (hardware_event migratedSchema demoState (some HW_API_KEY) hwBody1 "T1").2
    rfl rfl (by rfl)
  exact h

/-- Counterexample to C4 as stated: supplying the identifier " VHL2023 "
(surrounding whitespace) persists an event row whose vehicle reference is
the stripped "VHL2023", not the exact raw string the caller supplied. -/
theorem hardware_event_stores_trimmed_c4_cx :
    ((hardware_event migratedSchema demoState (some HW_API_KEY) hwBodyPadded "T2").2.db.events.map
      (fun e => e.vehicle_id) = ["VHL2023"]) ∧
    hwVidRaw hwBodyPadded = some " VHL2023 " ∧
    (" VHL2023 " : String) ≠ "VHL2023" := by decide

end AccidentDetection
